import Mathlib

/-!
Verification of the session-repository core of the `boundary` repository.

The repository's session operations (`CreateSession`, `ActivateSession`,
`CancelSession`, `TerminateSession`, `CloseConnections`, `DeleteSession`,
`LookupSession`, and the internal `updateState`) are exercised by
`internal/session/repository_session_test.go`; their implementation file is
not part of the provided sources, so the definitions below are modelled from
the specification (sections 3, 4 and 7), with the repository's own tests
pinning down the behaviour wherever they are more specific than the spec
prose.  The error-classification predicates (`IsUniqueError`,
`IsCheckConstraintError`, `IsNotNullError`) are embedded directly from
`internal/errors/is.go`.

The database is modelled as an explicit value threaded through every
operation: each mutating operation returns the post-state database together
with an `Except` result, so "fails without mutating" is the statement that
the returned database equals the input database.
-/

namespace Boundary

/-- Session lifecycle statuses, from the spec's data model (section 3):
`pending | active | cancelling | terminated`. -/
inductive Status where
  | pending
  | active
  | cancelling
  | terminated
deriving DecidableEq, Repr

/-- Connection statuses, from the spec's data model: `connected | closed`. -/
inductive ConnStatus where
  | connected
  | closed
deriving DecidableEq, Repr

/-- Modelled from the spec: the Session entity (section 3) with its
identifier attributes, version counter, optional termination reason,
optional trust-on-first-use token and optional bound worker. -/
structure Session where
  publicId : String
  scopeId : String
  userId : String
  targetId : String
  hostId : String
  hostSetId : String
  authTokenId : String
  endpoint : String
  version : Nat
  terminationReason : Option String
  tofuToken : Option String
  workerId : Option String
  workerType : Option String
deriving DecidableEq, Repr

/-- Modelled from the spec: one SessionState row — one row per status the
session has held.  History lists are kept newest first, so the head of a
session's history is its current state. -/
structure SessionState where
  sessionId : String
  status : Status
deriving DecidableEq, Repr

/-- Modelled from the spec: the Connection entity (section 3). -/
structure Connection where
  publicId : String
  sessionId : String
  clientAddr : String
  clientPort : Nat
  endpointAddr : String
  endpointPort : Nat
  version : Nat
  bytesUp : Nat
  bytesDown : Nat
  closedReason : Option String
deriving DecidableEq, Repr

/-- Modelled from the spec: one ConnectionState row of a connection's
append-only history (newest first). -/
structure ConnectionState where
  connectionId : String
  status : ConnStatus
deriving DecidableEq, Repr

/-- Operation kinds recorded by the generic audit log (oplog). -/
inductive OpType where
  | createOp
  | updateOp
  | deleteOp
deriving DecidableEq, Repr

/-- One generic audit-log (oplog) entry, keyed by the public id of the
entity it records. -/
structure OplogEntry where
  targetId : String
  op : OpType
deriving DecidableEq, Repr

/-- Modelled from the spec: the relational store (section 6) — sessions,
session_states, connections, connection_states, plus the generic audit log
consumed for comparison only, and a counter for generating fresh public
identifiers. -/
structure DB where
  sessions : List Session
  sessionStates : List SessionState
  connections : List Connection
  connectionStates : List ConnectionState
  oplog : List OplogEntry
  nextId : Nat
deriving DecidableEq, Repr

/-- Error kinds, from the spec's error-handling design (section 7). -/
inductive Err where
  | invalidParameter
  | recordNotFound
  | versionMismatch
  | preconditionFailed
deriving DecidableEq, Repr

/-- Boolean success test for an `Except` result. -/
def isSuccess {α : Type} : Except Err α → Bool
  | Except.ok _ => true
  | Except.error _ => false

/-- Decidable equality of `Except` results, used to evaluate the witness
statements. -/
instance instDecEqExcept {ε α : Type} [DecidableEq ε] [DecidableEq α] :
    DecidableEq (Except ε α) := fun x y =>
  match x, y with
  | Except.ok a, Except.ok b =>
    if h : a = b then isTrue (by rw [h]) else isFalse (fun hc => h (Except.ok.inj hc))
  | Except.error e1, Except.error e2 =>
    if h : e1 = e2 then isTrue (by rw [h]) else isFalse (fun hc => h (Except.error.inj hc))
  | Except.ok _, Except.error _ => isFalse (fun hc => Except.noConfusion hc)
  | Except.error _, Except.ok _ => isFalse (fun hc => Except.noConfusion hc)

/-- Look up a session row by public id. -/
def FindSession (db : DB) (sid : String) : Option Session :=
  db.sessions.find? (fun x => decide (x.publicId = sid))

/-- The state history of a session, newest first. -/
def SessionHistory (db : DB) (sid : String) : List SessionState :=
  db.sessionStates.filter (fun st => decide (st.sessionId = sid))

/-- The current status of a session: the status of the newest state row. -/
def CurrentStatus (db : DB) (sid : String) : Option Status :=
  (SessionHistory db sid).head?.map (fun st => st.status)

/-- Look up a connection row by public id. -/
def FindConnection (db : DB) (cid : String) : Option Connection :=
  db.connections.find? (fun c => decide (c.publicId = cid))

/-- The state history of a connection, newest first. -/
def ConnHistory (db : DB) (cid : String) : List ConnectionState :=
  db.connectionStates.filter (fun cs => decide (cs.connectionId = cid))

/-- The current status of a connection: the status of its newest state row. -/
def ConnCurrentStatus (db : DB) (cid : String) : Option ConnStatus :=
  (ConnHistory db cid).head?.map (fun cs => cs.status)

/-- The connections owned by a session. -/
def SessionConnections (db : DB) (sid : String) : List Connection :=
  db.connections.filter (fun c => decide (c.sessionId = sid))

/-- Whether the session owns a connection whose most recent state is not
`closed`. -/
def HasOpenConnection (db : DB) (sid : String) : Bool :=
  (SessionConnections db sid).any
    (fun c => decide (ConnCurrentStatus db c.publicId ≠ some ConnStatus.closed))

/-- Replace the session row with the given public id. -/
def ReplaceSession (db : DB) (sid : String) (s' : Session) : DB :=
  { db with sessions := db.sessions.map (fun x => if x.publicId = sid then s' else x) }

/-- Modelled from the spec: the repository's internal `updateState`
(sections 4.1 and 5; exercised by `TestRepository_UpdateState`): fails
InvalidParameter on an empty session id or zero version, fails when no
session row matches, fails on a version mismatch without mutating anything,
and otherwise appends a state row for the new status, increments the
version, and returns the updated session with its full newest-first
history. -/
def updateState (db : DB) (sid : String) (v : Nat) (st : Status) :
    DB × Except Err (Session × List SessionState) :=
  if sid = "" then (db, Except.error Err.invalidParameter)
  else if v = 0 then (db, Except.error Err.invalidParameter)
  else
    match FindSession db sid with
    | none => (db, Except.error Err.recordNotFound)
    | some s =>
      if v = s.version then
        let s' := { s with version := s.version + 1 }
        let db' := { ReplaceSession db sid s' with
                     sessionStates := { sessionId := sid, status := st } :: db.sessionStates }
        (db', Except.ok (s', SessionHistory db' sid))
      else (db, Except.error Err.versionMismatch)

/-- Modelled from the spec: `ActivateSession` (section 4.1): guards on
empty id / zero version, requires the session to exist and its current
status to be `pending` (activation is a one-shot transition), requires the
supplied version to equal the stored version, and on success binds the
worker and the trust-on-first-use token, increments the version, and
appends an `active` state row. -/
def ActivateSession (db : DB) (sid : String) (v : Nat)
    (workerId workerType tofuToken : String) :
    DB × Except Err (Session × List SessionState) :=
  if sid = "" then (db, Except.error Err.invalidParameter)
  else if v = 0 then (db, Except.error Err.invalidParameter)
  else
    match FindSession db sid with
    | none => (db, Except.error Err.recordNotFound)
    | some s =>
      if CurrentStatus db sid = some Status.pending then
        if v = s.version then
          let s' := { s with version := s.version + 1,
                             tofuToken := some tofuToken,
                             workerId := some workerId,
                             workerType := some workerType }
          let db' := { ReplaceSession db sid s' with
                       sessionStates :=
                         { sessionId := sid, status := Status.active } :: db.sessionStates }
          (db', Except.ok (s', SessionHistory db' sid))
        else (db, Except.error Err.versionMismatch)
      else (db, Except.error Err.preconditionFailed)

/-- Modelled from the spec: `CancelSession` (section 4.1): transitions a
session from `pending` or `active` to `cancelling`, with the same
empty-id / zero-version guard and the same version-match requirement. -/
def CancelSession (db : DB) (sid : String) (v : Nat) :
    DB × Except Err (Session × List SessionState) :=
  if sid = "" then (db, Except.error Err.invalidParameter)
  else if v = 0 then (db, Except.error Err.invalidParameter)
  else
    match FindSession db sid with
    | none => (db, Except.error Err.recordNotFound)
    | some s =>
      if CurrentStatus db sid = some Status.pending ∨
         CurrentStatus db sid = some Status.active then
        if v = s.version then
          let s' := { s with version := s.version + 1 }
          let db' := { ReplaceSession db sid s' with
                       sessionStates :=
                         { sessionId := sid, status := Status.cancelling } :: db.sessionStates }
          (db', Except.ok (s', SessionHistory db' sid))
        else (db, Except.error Err.versionMismatch)
      else (db, Except.error Err.preconditionFailed)

/-- Modelled from the spec: `TerminateSession` (section 4.1): same
empty/zero guard; fails while the session owns a connection whose most
recent state is not `closed`; `terminated` is terminal (section 4.3) so an
already-terminated session cannot be terminated again; section 4.1 states
no other precondition on the current status, and the repository's own test
(`TestRepository_TerminateSession`, case `valid-pending-session`) requires
terminating a `pending` session to succeed.  On success records the reason,
appends a `terminated` state row and increments the version. -/
def TerminateSession (db : DB) (sid : String) (v : Nat) (reason : String) :
    DB × Except Err (Session × List SessionState) :=
  if sid = "" then (db, Except.error Err.invalidParameter)
  else if v = 0 then (db, Except.error Err.invalidParameter)
  else
    match FindSession db sid with
    | none => (db, Except.error Err.recordNotFound)
    | some s =>
      if CurrentStatus db sid = some Status.terminated then
        (db, Except.error Err.preconditionFailed)
      else if HasOpenConnection db sid then
        (db, Except.error Err.preconditionFailed)
      else if v = s.version then
        let s' := { s with version := s.version + 1,
                           terminationReason := some reason }
        let db' := { ReplaceSession db sid s' with
                     sessionStates :=
                       { sessionId := sid, status := Status.terminated } :: db.sessionStates }
        (db', Except.ok (s', SessionHistory db' sid))
      else (db, Except.error Err.versionMismatch)

/-- The public identifier generated for the next created session. -/
def genId (db : DB) : String := "s_" ++ toString db.nextId

/-- Modelled from the spec: `CreateSession` (section 4.1): fails
InvalidParameter, persisting nothing, when any of the user, host, target,
host-set, auth-token or scope identifiers is empty; otherwise inserts the
session row (generated identifier, version 1) and its initial `pending`
state row atomically and returns both. -/
def CreateSession (db : DB) (s : Session) :
    DB × Except Err (Session × SessionState) :=
  if s.userId = "" ∨ s.hostId = "" ∨ s.targetId = "" ∨ s.hostSetId = "" ∨
     s.authTokenId = "" ∨ s.scopeId = "" then
    (db, Except.error Err.invalidParameter)
  else
    let id := genId db
    let s' := { s with publicId := id, version := 1,
                       terminationReason := none, tofuToken := none,
                       workerId := none, workerType := none }
    let st : SessionState := { sessionId := id, status := Status.pending }
    ({ db with sessions := s' :: db.sessions,
               sessionStates := st :: db.sessionStates,
               nextId := db.nextId + 1 },
     Except.ok (s', st))

/-- Modelled from the spec: `LookupSession` (section 4.2): returns the
session and its full newest-first state history, or a nil result — not an
error — when no row matches. -/
def LookupSession (db : DB) (sid : String) :
    Except Err (Option (Session × List SessionState)) :=
  Except.ok ((FindSession db sid).map (fun s => (s, SessionHistory db sid)))

/-- Modelled from the spec: `DeleteSession` (section 4.1): fails
InvalidParameter on an empty id, RecordNotFound when no row matches, and
otherwise hard-deletes the session row (cascading to its state and
connection rows) and returns the count of session rows deleted. -/
def DeleteSession (db : DB) (sid : String) : DB × Except Err Nat :=
  if sid = "" then (db, Except.error Err.invalidParameter)
  else
    match FindSession db sid with
    | none => (db, Except.error Err.recordNotFound)
    | some _ =>
      let ownedConnIds := (SessionConnections db sid).map (fun c => c.publicId)
      let deleted := db.sessions.countP (fun x => decide (x.publicId = sid))
      ({ db with
          sessions := db.sessions.filter (fun x => decide (x.publicId ≠ sid)),
          sessionStates := db.sessionStates.filter (fun st => decide (st.sessionId ≠ sid)),
          connections := db.connections.filter (fun c => decide (c.sessionId ≠ sid)),
          connectionStates :=
            db.connectionStates.filter (fun cs => decide (cs.connectionId ∉ ownedConnIds)) },
       Except.ok deleted)

/-- The generic audit-log entries recorded for a given public id. -/
def FindOplog (db : DB) (id : String) : List OplogEntry :=
  db.oplog.filter (fun e => decide (e.targetId = id))

/-- Modelled from the spec: one item of a `CloseConnections` batch
(section 4.1). -/
structure CloseWith where
  connectionId : String
  connectionVersion : Nat
  bytesUp : Nat
  bytesDown : Nat
  closedReason : String
deriving DecidableEq, Repr

/-- One per-connection result of `CloseConnections`: the updated connection
and its full state history, current state first. -/
structure CloseConnectionResp where
  connection : Connection
  connectionStates : List ConnectionState
deriving DecidableEq, Repr

/-- Modelled from the spec: closing one connection inside the
`CloseConnections` transaction: the stored connection is looked up, its
version checked against the supplied one, byte counters set, a `closed`
state row appended and the version incremented. -/
def CloseOne (db : DB) (cw : CloseWith) : Except Err (DB × CloseConnectionResp) :=
  match FindConnection db cw.connectionId with
  | none => Except.error Err.recordNotFound
  | some c =>
    if cw.connectionVersion = c.version then
      let c' := { c with version := c.version + 1,
                         bytesUp := cw.bytesUp, bytesDown := cw.bytesDown,
                         closedReason := some cw.closedReason }
      let db' := { db with
        connections := db.connections.map (fun x => if x.publicId = cw.connectionId then c' else x),
        connectionStates :=
          { connectionId := cw.connectionId, status := ConnStatus.closed } :: db.connectionStates }
      Except.ok (db', { connection := c', connectionStates := ConnHistory db' cw.connectionId })
    else Except.error Err.versionMismatch

/-- Modelled from the spec: the body of the `CloseConnections` transaction —
a loop over the batch in which any item failure aborts the whole scope. -/
def CloseAll (db : DB) : List CloseWith → Except Err (DB × List CloseConnectionResp)
  | [] => Except.ok (db, [])
  | cw :: rest =>
    match CloseOne db cw with
    | Except.error e => Except.error e
    | Except.ok (db', r) =>
      match CloseAll db' rest with
      | Except.error e => Except.error e
      | Except.ok (dbf, rs) => Except.ok (dbf, r :: rs)

/-- Modelled from the spec: `CloseConnections` (section 4.1): fails
InvalidParameter when the batch is empty or any item carries an empty
connection id or zero version; applies all items in one transaction,
all-or-nothing, so a failing item leaves every connection unmutated; on
success returns one result per input item. -/
def CloseConnections (db : DB) (cws : List CloseWith) :
    DB × Except Err (List CloseConnectionResp) :=
  if cws = [] then (db, Except.error Err.invalidParameter)
  else if cws.any (fun cw => decide (cw.connectionId = "" ∨ cw.connectionVersion = 0)) then
    (db, Except.error Err.invalidParameter)
  else
    match CloseAll db cws with
    | Except.error e => (db, Except.error e)
    | Except.ok (dbf, rs) => (dbf, Except.ok rs)

/-!
Error classification, embedded from `internal/errors/is.go`.

A Go error value is either absent (`nil`, modelled as `none`) or a linear
chain of wrappers: the repository's domain `Error` carries a `Code` and may
wrap a further error through its `Wrapped` field, a storage-driver
`pq.Error` carries a code name and wraps nothing, and generic wrappers
(`fmt.Errorf` with `%w`) carry no classification of their own.
`errors.As` walks the chain outside-in and stops at the first error of the
sought type.
-/

/-- Domain error codes relevant to `is.go`: `NotUnique`, `CheckConstraint`,
`NotNull`, and anything else. -/
inductive Code where
  | notUnique
  | checkConstraint
  | notNull
  | otherCode
deriving DecidableEq, Repr

/-- A non-nil Go error chain: a domain error (leaf or wrapping), a
`pq.Error` leaf, a generic wrapper, or some other leaf error. -/
inductive GoError where
  | domainLeaf (code : Code)
  | domainWrap (code : Code) (inner : GoError)
  | pqe (codeName : String)
  | wrapErr (inner : GoError)
  | plain
deriving DecidableEq, Repr

/-- The semantics of `errors.As(err, &domainErr)`: the code of the first
domain error in the chain, if any. -/
def asDomain : GoError → Option Code
  | GoError.domainLeaf c => some c
  | GoError.domainWrap c _ => some c
  | GoError.pqe _ => none
  | GoError.wrapErr e => asDomain e
  | GoError.plain => none

/-- The semantics of `errors.As(err, &pqError)`: the code name of the first
`pq.Error` in the chain, if any. -/
def asPq : GoError → Option String
  | GoError.domainLeaf _ => none
  | GoError.domainWrap _ e => asPq e
  | GoError.pqe n => some n
  | GoError.wrapErr e => asPq e
  | GoError.plain => none

/-- Embedded from `is.go` (`IsUniqueError`): false for nil; true when
`errors.As` finds a domain error whose code is `NotUnique`, or else a
`pq.Error` whose code name is `unique_violation`. -/
def IsUniqueError (err : Option GoError) : Bool :=
  match err with
  | none => false
  | some e =>
    (match asDomain e with
     | some c => decide (c = Code.notUnique)
     | none => false) ||
    (match asPq e with
     | some n => decide (n = "unique_violation")
     | none => false)

/-- Embedded from `is.go` (`IsCheckConstraintError`): false for nil; true
when `errors.As` finds a domain error whose code is `CheckConstraint`, or
else a `pq.Error` whose code name is `check_violation`. -/
def IsCheckConstraintError (err : Option GoError) : Bool :=
  match err with
  | none => false
  | some e =>
    (match asDomain e with
     | some c => decide (c = Code.checkConstraint)
     | none => false) ||
    (match asPq e with
     | some n => decide (n = "check_violation")
     | none => false)

/-- Embedded from `is.go` (`IsNotNullError`): false for nil; true when
`errors.As` finds a domain error whose code is `NotNull`, or else a
`pq.Error` whose code name is `not_null_violation`. -/
def IsNotNullError (err : Option GoError) : Bool :=
  match err with
  | none => false
  | some e =>
    (match asDomain e with
     | some c => decide (c = Code.notNull)
     | none => false) ||
    (match asPq e with
     | some n => decide (n = "not_null_violation")
     | none => false)

/-- Whether the error chain contains a domain error carrying the given
code (the claim's reading of classification). -/
def chainContainsDomain (code : Code) : GoError → Bool
  | GoError.domainLeaf c => decide (c = code)
  | GoError.domainWrap c e => decide (c = code) || chainContainsDomain code e
  | GoError.pqe _ => false
  | GoError.wrapErr e => chainContainsDomain code e
  | GoError.plain => false

/-- Whether the error chain contains a `pq.Error` whose code name is the
given one. -/
def chainContainsPq (name : String) : GoError → Bool
  | GoError.domainLeaf _ => false
  | GoError.domainWrap _ e => chainContainsPq name e
  | GoError.pqe n => decide (n = name)
  | GoError.wrapErr e => chainContainsPq name e
  | GoError.plain => false

/-- The transition relation of the spec's state-machine summary
(section 4.3), extended with the `pending` to `terminated` step that the
repository's own termination test exercises. -/
def StepAllowed : Status → Status → Bool
  | Status.pending, Status.active => true
  | Status.pending, Status.cancelling => true
  | Status.pending, Status.terminated => true
  | Status.active, Status.cancelling => true
  | Status.active, Status.terminated => true
  | Status.cancelling, Status.terminated => true
  | _, _ => false

/-! Concrete fixtures used by the witness theorems, mirroring the shape of
the sessions built by `TestDefaultSession` in the repository's tests. -/

/-- A freshly created test session: version 1, no worker, no trust token. -/
def s0 : Session :=
  { publicId := "s_1", scopeId := "o_1", userId := "u_1", targetId := "t_1",
    hostId := "h_1", hostSetId := "hs_1", authTokenId := "at_1",
    endpoint := "tcp", version := 1,
    terminationReason := none, tofuToken := none, workerId := none, workerType := none }

/-- A database holding the single pending session `s0`. -/
def db0 : DB :=
  { sessions := [s0],
    sessionStates := [{ sessionId := "s_1", status := Status.pending }],
    connections := [], connectionStates := [], oplog := [], nextId := 2 }

/-- The session `s0` after activation by worker `w_1`. -/
def sAct : Session :=
  { s0 with version := 2, tofuToken := some "tofu_1",
            workerId := some "w_1", workerType := some "pki" }

/-- The database `db0` after `s0` was activated. -/
def dbAct : DB :=
  { sessions := [sAct],
    sessionStates := [{ sessionId := "s_1", status := Status.active },
                      { sessionId := "s_1", status := Status.pending }],
    connections := [], connectionStates := [], oplog := [], nextId := 2 }

/-- A connection owned by session `s_1`. -/
def c0 : Connection :=
  { publicId := "sc_1", sessionId := "s_1",
    clientAddr := "127.0.0.1", clientPort := 22,
    endpointAddr := "127.0.0.1", endpointPort := 2222,
    version := 1, bytesUp := 0, bytesDown := 0, closedReason := none }

/-- A second connection owned by session `s_1`. -/
def c1 : Connection := { c0 with publicId := "sc_2" }

/-- The database `db0` with one open (`connected`) connection. -/
def dbOpen : DB :=
  { db0 with connections := [c0],
             connectionStates := [{ connectionId := "sc_1", status := ConnStatus.connected }] }

/-- The database `db0` with one connection whose latest state is `closed`. -/
def dbClosed : DB :=
  { db0 with connections := [c0],
             connectionStates := [{ connectionId := "sc_1", status := ConnStatus.closed },
                                  { connectionId := "sc_1", status := ConnStatus.connected }] }

/-- The database `db0` with two open connections, ready for a close
batch. -/
def dbTwo : DB :=
  { db0 with connections := [c0, c1],
             connectionStates := [{ connectionId := "sc_2", status := ConnStatus.connected },
                                  { connectionId := "sc_1", status := ConnStatus.connected }] }

/-- A well-formed close-batch item for connection `sc_1`. -/
def cw0 : CloseWith :=
  { connectionId := "sc_1", connectionVersion := 1, bytesUp := 1, bytesDown := 2,
    closedReason := "closed by user" }

/-- A well-formed close-batch item for connection `sc_2`. -/
def cw1 : CloseWith := { cw0 with connectionId := "sc_2" }

/-- A session value as passed to `CreateSession`: identifiers set, public
id and version not yet assigned. -/
def sNew : Session := { s0 with publicId := "", version := 0 }

/-- The per-connection results of closing the batch `[cw0, cw1]` on
`dbTwo`. -/
def respTwo : List CloseConnectionResp :=
  [{ connection :=
       { c0 with version := 2, bytesUp := 1, bytesDown := 2, closedReason := some "closed by user" },
     connectionStates :=
       [{ connectionId := "sc_1", status := ConnStatus.closed },
        { connectionId := "sc_1", status := ConnStatus.connected }] },
   { connection :=
       { c1 with version := 2, bytesUp := 1, bytesDown := 2, closedReason := some "closed by user" },
     connectionStates :=
       [{ connectionId := "sc_2", status := ConnStatus.closed },
        { connectionId := "sc_2", status := ConnStatus.connected }] }]

/-- The session `s0` after cancellation. -/
def sCancel : Session := { s0 with version := 2 }

/-- The database `db0` after `s0` was cancelled. -/
def dbCancel : DB :=
  { sessions := [sCancel],
    sessionStates := [{ sessionId := "s_1", status := Status.cancelling },
                      { sessionId := "s_1", status := Status.pending }],
    connections := [], connectionStates := [], oplog := [], nextId := 2 }

/-! Helper lemmas about the state-history tables. -/

/-- Appending a state row for a session puts that row at the head of the
session's newest-first state history. -/
lemma SessionHistory_append (db : DB) (sid : String) (s' : Session) (st : Status) :
    SessionHistory { ReplaceSession db sid s' with
                     sessionStates := { sessionId := sid, status := st } :: db.sessionStates } sid
      = { sessionId := sid, status := st } :: SessionHistory db sid := by
  unfold SessionHistory ReplaceSession
  simp [List.filter_cons]

/-- Appending a state row for a session makes its status the session's
current status. -/
lemma CurrentStatus_append (db : DB) (sid : String) (s' : Session) (st : Status) :
    CurrentStatus { ReplaceSession db sid s' with
                    sessionStates := { sessionId := sid, status := st } :: db.sessionStates } sid
      = some st := by
  unfold CurrentStatus
  rw [SessionHistory_append]
  rfl

/-- Discharge an impossible equation between an error result and an ok
result. -/
lemma err_ne_ok {α : Type} {a : DB} {b : DB} {e : Err} {x : α}
    (h : (a, (Except.error e : Except Err α)) = (b, Except.ok x)) : False :=
  Except.noConfusion (congrArg Prod.snd h)

/-! Helper lemmas about `updateState`. -/

/-- With no matching session row, `updateState` fails and returns the
database unchanged. -/
lemma updateState_none (db : DB) (sid : String) (v : Nat) (st : Status)
    (hfind : FindSession db sid = none) :
    ∃ e, updateState db sid v st = (db, Except.error e) := by
  unfold updateState
  simp only [hfind]
  split_ifs <;> exact ⟨_, rfl⟩

/-- With a session present and a version different from its stored one,
`updateState` fails and returns the database unchanged. -/
lemma updateState_stale (db : DB) (sid : String) (v : Nat) (st : Status) (s : Session)
    (hfind : FindSession db sid = some s) (hv : v ≠ s.version) :
    ∃ e, updateState db sid v st = (db, Except.error e) := by
  unfold updateState
  simp only [hfind]
  split_ifs <;> exact ⟨_, rfl⟩

/-- Inversion of a successful `updateState` on a found session: the guards
passed, the version matched and was incremented by one, and a state row for
the new status was appended. -/
lemma updateState_ok_inv (db db' : DB) (sid : String) (v : Nat) (st : Status)
    (s s' : Session) (ss : List SessionState)
    (hfind : FindSession db sid = some s)
    (h : updateState db sid v st = (db', Except.ok (s', ss))) :
    sid ≠ "" ∧ v ≠ 0 ∧ v = s.version ∧
      s' = { s with version := s.version + 1 } ∧
      db' = { ReplaceSession db sid s' with
              sessionStates := { sessionId := sid, status := st } :: db.sessionStates } ∧
      ss = SessionHistory db' sid := by
  unfold updateState at h
  simp only [hfind] at h
  split_ifs at h with h1 h2 h3
  · exact absurd h (fun hc => err_ne_ok hc)
  · exact absurd h (fun hc => err_ne_ok hc)
  · simp only [Prod.mk.injEq, Except.ok.injEq] at h
    obtain ⟨hdb, hs, hss⟩ := h
    subst hs
    subst hdb
    exact ⟨h1, h2, h3, rfl, rfl, hss.symm⟩
  · exact absurd h (fun hc => err_ne_ok hc)

/-! Helper lemmas about `ActivateSession`. -/

/-- With no matching session row, `ActivateSession` fails and returns the
database unchanged. -/
lemma activate_none (db : DB) (sid : String) (v : Nat) (w wt tofu : String)
    (hfind : FindSession db sid = none) :
    ∃ e, ActivateSession db sid v w wt tofu = (db, Except.error e) := by
  unfold ActivateSession
  simp only [hfind]
  split_ifs <;> exact ⟨_, rfl⟩

/-- With a session present and a version different from its stored one,
`ActivateSession` fails and returns the database unchanged. -/
lemma activate_stale (db : DB) (sid : String) (v : Nat) (w wt tofu : String) (s : Session)
    (hfind : FindSession db sid = some s) (hv : v ≠ s.version) :
    ∃ e, ActivateSession db sid v w wt tofu = (db, Except.error e) := by
  unfold ActivateSession
  simp only [hfind]
  split_ifs <;> exact ⟨_, rfl⟩

/-- On a session whose current status is not `pending`, `ActivateSession`
always fails and returns the database unchanged, whatever version is
supplied. -/
lemma activate_nonpending (db : DB) (sid : String) (v : Nat) (w wt tofu : String)
    (h : CurrentStatus db sid ≠ some Status.pending) :
    ∃ e, ActivateSession db sid v w wt tofu = (db, Except.error e) := by
  rcases hf : FindSession db sid with _ | s
  · exact activate_none db sid v w wt tofu hf
  · unfold ActivateSession
    simp only [hf]
    split_ifs <;> exact ⟨_, rfl⟩

/-- Inversion of a successful `ActivateSession` on a found session: the
guards passed, the session was `pending`, the version matched and was
incremented by one, the worker binding and the trust token were set, and an
`active` state row was appended. -/
lemma activate_ok_inv (db db' : DB) (sid : String) (v : Nat) (w wt tofu : String)
    (s s' : Session) (ss : List SessionState)
    (hfind : FindSession db sid = some s)
    (h : ActivateSession db sid v w wt tofu = (db', Except.ok (s', ss))) :
    sid ≠ "" ∧ v ≠ 0 ∧ v = s.version ∧
      CurrentStatus db sid = some Status.pending ∧
      s' = { s with version := s.version + 1, tofuToken := some tofu,
                    workerId := some w, workerType := some wt } ∧
      db' = { ReplaceSession db sid s' with
              sessionStates := { sessionId := sid, status := Status.active } :: db.sessionStates } ∧
      ss = SessionHistory db' sid := by
  unfold ActivateSession at h
  simp only [hfind] at h
  split_ifs at h with h1 h2 h3 h4
  · exact absurd h (fun hc => err_ne_ok hc)
  · exact absurd h (fun hc => err_ne_ok hc)
  · simp only [Prod.mk.injEq, Except.ok.injEq] at h
    obtain ⟨hdb, hs, hss⟩ := h
    subst hs
    subst hdb
    exact ⟨h1, h2, h4, h3, rfl, rfl, hss.symm⟩
  · exact absurd h (fun hc => err_ne_ok hc)
  · exact absurd h (fun hc => err_ne_ok hc)

/-- Forward evaluation of a successful `ActivateSession` on a `pending`
session with its stored version. -/
lemma activate_ok_eq (db : DB) (sid : String) (s : Session) (w wt tofu : String)
    (hid : ¬(sid = "")) (hfind : FindSession db sid = some s) (hv0 : ¬(s.version = 0))
    (hstat : CurrentStatus db sid = some Status.pending) :
    ActivateSession db sid s.version w wt tofu =
      ({ ReplaceSession db sid
           { s with version := s.version + 1, tofuToken := some tofu,
                    workerId := some w, workerType := some wt } with
         sessionStates := { sessionId := sid, status := Status.active } :: db.sessionStates },
       Except.ok ({ s with version := s.version + 1, tofuToken := some tofu,
                           workerId := some w, workerType := some wt },
         SessionHistory
           { ReplaceSession db sid
               { s with version := s.version + 1, tofuToken := some tofu,
                        workerId := some w, workerType := some wt } with
             sessionStates := { sessionId := sid, status := Status.active } :: db.sessionStates }
           sid)) := by
  unfold ActivateSession
  simp only [hfind]
  rw [if_neg hid, if_neg hv0, if_pos hstat, if_pos trivial]

/-! Helper lemmas about `CancelSession`. -/

/-- With no matching session row, `CancelSession` fails and returns the
database unchanged. -/
lemma cancel_none (db : DB) (sid : String) (v : Nat)
    (hfind : FindSession db sid = none) :
    ∃ e, CancelSession db sid v = (db, Except.error e) := by
  unfold CancelSession
  simp only [hfind]
  split_ifs <;> exact ⟨_, rfl⟩

/-- With a session present and a version different from its stored one,
`CancelSession` fails and returns the database unchanged. -/
lemma cancel_stale (db : DB) (sid : String) (v : Nat) (s : Session)
    (hfind : FindSession db sid = some s) (hv : v ≠ s.version) :
    ∃ e, CancelSession db sid v = (db, Except.error e) := by
  unfold CancelSession
  simp only [hfind]
  split_ifs <;> exact ⟨_, rfl⟩

/-- Inversion of a successful `CancelSession` on a found session: the
guards passed, the session was `pending` or `active`, the version matched
and was incremented by one, and a `cancelling` state row was appended. -/
lemma cancel_ok_inv (db db' : DB) (sid : String) (v : Nat)
    (s s' : Session) (ss : List SessionState)
    (hfind : FindSession db sid = some s)
    (h : CancelSession db sid v = (db', Except.ok (s', ss))) :
    sid ≠ "" ∧ v ≠ 0 ∧ v = s.version ∧
      (CurrentStatus db sid = some Status.pending ∨
       CurrentStatus db sid = some Status.active) ∧
      s' = { s with version := s.version + 1 } ∧
      db' = { ReplaceSession db sid s' with
              sessionStates := { sessionId := sid, status := Status.cancelling } :: db.sessionStates } ∧
      ss = SessionHistory db' sid := by
  unfold CancelSession at h
  simp only [hfind] at h
  split_ifs at h with h1 h2 h3 h4
  · exact absurd h (fun hc => err_ne_ok hc)
  · exact absurd h (fun hc => err_ne_ok hc)
  · simp only [Prod.mk.injEq, Except.ok.injEq] at h
    obtain ⟨hdb, hs, hss⟩ := h
    subst hs
    subst hdb
    exact ⟨h1, h2, h4, h3, rfl, rfl, hss.symm⟩
  · exact absurd h (fun hc => err_ne_ok hc)
  · exact absurd h (fun hc => err_ne_ok hc)

/-! Helper lemmas about `TerminateSession`. -/

/-- With no matching session row, `TerminateSession` fails and returns the
database unchanged. -/
lemma terminate_none (db : DB) (sid : String) (v : Nat) (r : String)
    (hfind : FindSession db sid = none) :
    ∃ e, TerminateSession db sid v r = (db, Except.error e) := by
  unfold TerminateSession
  simp only [hfind]
  split_ifs <;> exact ⟨_, rfl⟩

/-- With a session present and a version different from its stored one,
`TerminateSession` fails and returns the database unchanged. -/
lemma terminate_stale (db : DB) (sid : String) (v : Nat) (r : String) (s : Session)
    (hfind : FindSession db sid = some s) (hv : v ≠ s.version) :
    ∃ e, TerminateSession db sid v r = (db, Except.error e) := by
  unfold TerminateSession
  simp only [hfind]
  split_ifs <;> exact ⟨_, rfl⟩

/-- While the session owns a connection whose latest state is not `closed`,
`TerminateSession` fails and returns the database unchanged. -/
lemma terminate_open (db : DB) (sid : String) (v : Nat) (r : String)
    (hopen : HasOpenConnection db sid = true) :
    ∃ e, TerminateSession db sid v r = (db, Except.error e) := by
  rcases hf : FindSession db sid with _ | s
  · exact terminate_none db sid v r hf
  · unfold TerminateSession
    simp only [hf]
    split_ifs <;> exact ⟨_, rfl⟩

/-- Inversion of a successful `TerminateSession` on a found session: the
guards passed, the session was not already `terminated`, no owned
connection was open, the version matched and was incremented by one, the
reason was recorded and a `terminated` state row was appended. -/
lemma terminate_ok_inv (db db' : DB) (sid : String) (v : Nat) (r : String)
    (s s' : Session) (ss : List SessionState)
    (hfind : FindSession db sid = some s)
    (h : TerminateSession db sid v r = (db', Except.ok (s', ss))) :
    sid ≠ "" ∧ v ≠ 0 ∧ v = s.version ∧
      CurrentStatus db sid ≠ some Status.terminated ∧
      HasOpenConnection db sid = false ∧
      s' = { s with version := s.version + 1, terminationReason := some r } ∧
      db' = { ReplaceSession db sid s' with
              sessionStates := { sessionId := sid, status := Status.terminated } :: db.sessionStates } ∧
      ss = SessionHistory db' sid := by
  unfold TerminateSession at h
  simp only [hfind] at h
  split_ifs at h with h1 h2 h3 h4 h5
  · exact absurd h (fun hc => err_ne_ok hc)
  · exact absurd h (fun hc => err_ne_ok hc)
  · exact absurd h (fun hc => err_ne_ok hc)
  · exact absurd h (fun hc => err_ne_ok hc)
  · simp only [Prod.mk.injEq, Except.ok.injEq] at h
    obtain ⟨hdb, hs, hss⟩ := h
    subst hs
    subst hdb
    exact ⟨h1, h2, h5, h3, by simpa using h4, rfl, rfl, hss.symm⟩
  · exact absurd h (fun hc => err_ne_ok hc)

/-- Forward evaluation of a successful `TerminateSession` with the stored
version, on a session that is not `terminated` and has no open
connection. -/
lemma terminate_ok_eq (db : DB) (sid : String) (s : Session) (r : String)
    (hid : ¬(sid = "")) (hfind : FindSession db sid = some s) (hv0 : ¬(s.version = 0))
    (hterm : ¬(CurrentStatus db sid = some Status.terminated))
    (hopen : ¬(HasOpenConnection db sid = true)) :
    TerminateSession db sid s.version r =
      ({ ReplaceSession db sid { s with version := s.version + 1, terminationReason := some r } with
         sessionStates := { sessionId := sid, status := Status.terminated } :: db.sessionStates },
       Except.ok ({ s with version := s.version + 1, terminationReason := some r },
         SessionHistory
           { ReplaceSession db sid { s with version := s.version + 1, terminationReason := some r } with
             sessionStates := { sessionId := sid, status := Status.terminated } :: db.sessionStates }
           sid)) := by
  unfold TerminateSession
  simp only [hfind]
  rw [if_neg hid, if_neg hv0, if_neg hterm, if_neg hopen, if_pos trivial]

/-! Helper lemmas about `CreateSession`. -/

/-- Inversion of a successful `CreateSession`: the returned session is the
input with a generated identifier and version 1, the returned state row is
the `pending` row of the generated identifier, and both were inserted. -/
lemma create_ok_inv (db db' : DB) (snew s' : Session) (strow : SessionState)
    (h : CreateSession db snew = (db', Except.ok (s', strow))) :
    s' = { snew with publicId := genId db, version := 1,
                     terminationReason := none, tofuToken := none,
                     workerId := none, workerType := none } ∧
    strow = { sessionId := genId db, status := Status.pending } ∧
    db' = { db with sessions := s' :: db.sessions,
                    sessionStates := strow :: db.sessionStates,
                    nextId := db.nextId + 1 } := by
  unfold CreateSession at h
  split_ifs at h with h1
  · exact absurd h (fun hc => err_ne_ok hc)
  · simp only [Prod.mk.injEq, Except.ok.injEq] at h
    obtain ⟨hdb, hs, hst⟩ := h
    subst hs
    subst hst
    exact ⟨rfl, rfl, hdb.symm⟩

/-- Forward evaluation of a successful `CreateSession` with all required
identifiers non-empty. -/
lemma create_ok_eq (db : DB) (s : Session)
    (h : ¬(s.userId = "" ∨ s.hostId = "" ∨ s.targetId = "" ∨ s.hostSetId = "" ∨
           s.authTokenId = "" ∨ s.scopeId = "")) :
    CreateSession db s =
      ({ db with
          sessions := { s with publicId := genId db, version := 1,
                               terminationReason := none, tofuToken := none,
                               workerId := none, workerType := none } :: db.sessions,
          sessionStates := { sessionId := genId db, status := Status.pending } :: db.sessionStates,
          nextId := db.nextId + 1 },
       Except.ok ({ s with publicId := genId db, version := 1,
                           terminationReason := none, tofuToken := none,
                           workerId := none, workerType := none },
                  { sessionId := genId db, status := Status.pending })) := by
  unfold CreateSession
  rw [if_neg h]

/-! Helper lemmas about `DeleteSession`. -/

/-- A list of sessions with nodup public identifiers that contains a match
for `sid` contains exactly one such match. -/
lemma countP_publicId_eq_one (l : List Session) (sid : String) (s : Session)
    (hfind : l.find? (fun x => decide (x.publicId = sid)) = some s)
    (hnd : (l.map (fun x => x.publicId)).Nodup) :
    l.countP (fun x => decide (x.publicId = sid)) = 1 := by
  induction l with
  | nil => simp at hfind
  | cons a t ih =>
    rw [List.map_cons, List.nodup_cons] at hnd
    obtain ⟨hna, hnt⟩ := hnd
    by_cases ha : a.publicId = sid
    · rw [List.countP_cons_of_pos _ _ (by simpa using ha)]
      have ht : t.countP (fun x => decide (x.publicId = sid)) = 0 := by
        rw [List.countP_eq_zero]
        intro x hx
        simp only [decide_eq_true_eq]
        intro hxe
        exact hna (by rw [← ha] at hxe; exact List.mem_map.mpr ⟨x, hx, hxe⟩)
      rw [ht]
    · rw [List.countP_cons_of_neg _ _ (by simpa using ha)]
      rw [List.find?_cons_of_neg _ (by simpa using ha)] at hfind
      exact ih hfind hnt

/-- After filtering out every session whose public id is `sid`, no session
with public id `sid` can be found. -/
lemma find?_filter_ne (l : List Session) (sid : String) :
    (l.filter (fun x => decide (x.publicId ≠ sid))).find?
      (fun x => decide (x.publicId = sid)) = none := by
  rw [List.find?_eq_none]
  intro x hx
  rw [List.mem_filter] at hx
  simpa using hx.2

/-- Forward evaluation of a successful `DeleteSession` on a found
session. -/
lemma delete_ok_eq (db : DB) (sid : String) (s : Session)
    (hid : ¬(sid = "")) (hfind : FindSession db sid = some s) :
    DeleteSession db sid =
      ({ db with
          sessions := db.sessions.filter (fun x => decide (x.publicId ≠ sid)),
          sessionStates := db.sessionStates.filter (fun st => decide (st.sessionId ≠ sid)),
          connections := db.connections.filter (fun c => decide (c.sessionId ≠ sid)),
          connectionStates :=
            db.connectionStates.filter (fun cs =>
              decide (cs.connectionId ∉ (SessionConnections db sid).map (fun c => c.publicId))) },
       Except.ok (db.sessions.countP (fun x => decide (x.publicId = sid)))) := by
  unfold DeleteSession
  simp only [hfind]
  rw [if_neg hid]

/-! Helper lemmas about `CloseConnections`. -/

/-- Prepending a `closed` state row for a connection puts it at the head of
that connection's newest-first history. -/
lemma ConnHistory_cons (db db2 : DB) (cid : String)
    (h : db2.connectionStates =
         { connectionId := cid, status := ConnStatus.closed } :: db.connectionStates) :
    ConnHistory db2 cid =
      { connectionId := cid, status := ConnStatus.closed } :: ConnHistory db cid := by
  unfold ConnHistory
  rw [h]
  simp [List.filter_cons]

/-- A successful `CloseOne` returns a history whose current (first) state
is `closed`. -/
lemma closeOne_resp (db : DB) (cw : CloseWith) (db' : DB) (r : CloseConnectionResp)
    (h : CloseOne db cw = Except.ok (db', r)) :
    (r.connectionStates.head?.map (fun cs => cs.status)) = some ConnStatus.closed := by
  unfold CloseOne at h
  rcases hf : FindConnection db cw.connectionId with _ | c
  · rw [hf] at h
    exact Except.noConfusion h
  · simp only [hf] at h
    split_ifs at h with hv
    · simp only [Except.ok.injEq, Prod.mk.injEq] at h
      obtain ⟨hdb, hr⟩ := h
      subst hr
      rw [ConnHistory_cons db _ cw.connectionId rfl]
      rfl

/-- A successful `CloseAll` returns one response per batch item, each with
a current state of `closed`. -/
lemma closeAll_ok (cws : List CloseWith) :
    ∀ (db dbf : DB) (rs : List CloseConnectionResp),
    CloseAll db cws = Except.ok (dbf, rs) →
    rs.length = cws.length ∧
    ∀ r ∈ rs, (r.connectionStates.head?.map (fun cs => cs.status)) = some ConnStatus.closed := by
  induction cws with
  | nil =>
    intro db dbf rs h
    unfold CloseAll at h
    simp only [Except.ok.injEq, Prod.mk.injEq] at h
    obtain ⟨-, hrs⟩ := h
    subst hrs
    exact ⟨rfl, by intro r hr; exact absurd hr (List.not_mem_nil r)⟩
  | cons cw rest ih =>
    intro db dbf rs h
    unfold CloseAll at h
    rcases hc : CloseOne db cw with e | p
    · rw [hc] at h
      exact Except.noConfusion h
    · obtain ⟨db1, r⟩ := p
      simp only [hc] at h
      rcases hall : CloseAll db1 rest with e2 | p2
      · rw [hall] at h
        exact Except.noConfusion h
      · obtain ⟨db2, rs2⟩ := p2
        rw [hall] at h
        simp only [Except.ok.injEq, Prod.mk.injEq] at h
        obtain ⟨-, hrs⟩ := h
        subst hrs
        obtain ⟨hlen, hall2⟩ := ih db1 db2 rs2 hall
        refine ⟨by simp [hlen], ?_⟩
        intro r2 hr2
        rcases List.mem_cons.mp hr2 with hr2 | hr2
        · subst hr2
          exact closeOne_resp db cw db1 r2 hc
        · exact hall2 r2 hr2

/-- `CloseConnections` either fails leaving the database unchanged, or
succeeds with the result of the underlying transaction body. -/
lemma closeConnections_cases (db : DB) (cws : List CloseWith) :
    (∃ e, CloseConnections db cws = (db, Except.error e)) ∨
    (∃ dbf rs, CloseConnections db cws = (dbf, Except.ok rs) ∧
               CloseAll db cws = Except.ok (dbf, rs)) := by
  unfold CloseConnections
  split_ifs
  · exact Or.inl ⟨_, rfl⟩
  · exact Or.inl ⟨_, rfl⟩
  · rcases hall : CloseAll db cws with e | p
    · exact Or.inl ⟨e, rfl⟩
    · obtain ⟨dbf, rs⟩ := p
      exact Or.inr ⟨dbf, rs, rfl, rfl⟩

/-! The claims. -/

/-- C1: for every session and every mutating repository operation
(`ActivateSession`, `CancelSession`, `TerminateSession`, and the internal
`updateState`), a call supplying a non-zero version different from the
session's stored version fails and leaves the database — the session and
its state history included — unchanged; every successful mutation returns
the session with its stored version incremented by exactly 1, and
`CreateSession` starts the version at 1. -/
theorem session_version_discipline (db db' : DB) (sid : String) (v : Nat) (st : Status)
    (w wt tofu r : String) (s s' : Session) (ss : List SessionState)
    (snew : Session) (strow : SessionState) :
    (FindSession db sid = some s → v ≠ 0 → v ≠ s.version →
      ((updateState db sid v st).1 = db ∧ isSuccess (updateState db sid v st).2 = false) ∧
      ((ActivateSession db sid v w wt tofu).1 = db ∧
        isSuccess (ActivateSession db sid v w wt tofu).2 = false) ∧
      ((CancelSession db sid v).1 = db ∧ isSuccess (CancelSession db sid v).2 = false) ∧
      ((TerminateSession db sid v r).1 = db ∧
        isSuccess (TerminateSession db sid v r).2 = false)) ∧
    (FindSession db sid = some s →
      (updateState db sid v st = (db', Except.ok (s', ss)) → s'.version = s.version + 1) ∧
      (ActivateSession db sid v w wt tofu = (db', Except.ok (s', ss)) →
        s'.version = s.version + 1) ∧
      (CancelSession db sid v = (db', Except.ok (s', ss)) → s'.version = s.version + 1) ∧
      (TerminateSession db sid v r = (db', Except.ok (s', ss)) →
        s'.version = s.version + 1)) ∧
    (CreateSession db snew = (db', Except.ok (s', strow)) → s'.version = 1) := by
  refine ⟨?_, ?_, ?_⟩
  · intro hfind hv0 hv
    obtain ⟨e1, he1⟩ := updateState_stale db sid v st s hfind hv
    obtain ⟨e2, he2⟩ := activate_stale db sid v w wt tofu s hfind hv
    obtain ⟨e3, he3⟩ := cancel_stale db sid v s hfind hv
    obtain ⟨e4, he4⟩ := terminate_stale db sid v r s hfind hv
    rw [he1, he2, he3, he4]
    exact ⟨⟨rfl, rfl⟩, ⟨rfl, rfl⟩, ⟨rfl, rfl⟩, ⟨rfl, rfl⟩⟩
  · intro hfind
    refine ⟨?_, ?_, ?_, ?_⟩
    · intro h
      obtain ⟨-, -, -, hs', -, -⟩ := updateState_ok_inv db db' sid v st s s' ss hfind h
      rw [hs']
    · intro h
      obtain ⟨-, -, -, -, hs', -, -⟩ := activate_ok_inv db db' sid v w wt tofu s s' ss hfind h
      rw [hs']
    · intro h
      obtain ⟨-, -, -, -, hs', -, -⟩ := cancel_ok_inv db db' sid v s s' ss hfind h
      rw [hs']
    · intro h
      obtain ⟨-, -, -, -, -, hs', -, -⟩ := terminate_ok_inv db db' sid v r s s' ss hfind h
      rw [hs']
  · intro h
    obtain ⟨hs', -, -⟩ := create_ok_inv db db' snew s' strow h
    rw [hs']

/-- C1 witness: a stale version (5, against stored version 1) leaves the
concrete database `db0` unchanged and fails. -/
theorem session_version_discipline_witness :
    (updateState db0 "s_1" 5 Status.cancelling).1 = db0 ∧
    isSuccess (updateState db0 "s_1" 5 Status.cancelling).2 = false :=
  ((session_version_discipline db0 db0 "s_1" 5 Status.cancelling "w_1" "pki" "tofu_1"
      "closed by user" s0 s0 [] sNew { sessionId := "s_1", status := Status.pending }).1
    (by decide) (by decide) (by decide)).1

/-- C2: after one successful `ActivateSession`, every subsequent
`ActivateSession` on the same session fails, whatever version (stale or
current) and worker data are supplied. -/
theorem activate_session_exactly_once (db db' : DB) (sid : String) (v : Nat)
    (w wt tofu : String) (res : Session × List SessionState)
    (h : ActivateSession db sid v w wt tofu = (db', Except.ok res)) :
    ∀ (v2 : Nat) (w2 wt2 tofu2 : String),
      isSuccess (ActivateSession db' sid v2 w2 wt2 tofu2).2 = false := by
  intro v2 w2 wt2 tofu2
  obtain ⟨s', ss⟩ := res
  rcases hf : FindSession db sid with _ | s
  · obtain ⟨e, he⟩ := activate_none db sid v w wt tofu hf
    rw [he] at h
    exact absurd h (fun hc => err_ne_ok hc)
  · obtain ⟨-, -, -, -, -, hdb, -⟩ := activate_ok_inv db db' sid v w wt tofu s s' ss hf h
    have hcur : CurrentStatus db' sid = some Status.active := by
      rw [hdb]
      exact CurrentStatus_append db sid _ Status.active
    obtain ⟨e, he⟩ := activate_nonpending db' sid v2 w2 wt2 tofu2 (by simp [hcur])
    rw [he]
    rfl

/-- C2 witness: after activating `s0` in `db0`, activation fails both with
the original version 1 and with the incremented version 2. -/
theorem activate_session_exactly_once_witness :
    isSuccess (ActivateSession dbAct "s_1" 1 "w_1" "pki" "tofu_1").2 = false ∧
    isSuccess (ActivateSession dbAct "s_1" 2 "w_1" "pki" "tofu_1").2 = false :=
  ⟨activate_session_exactly_once db0 dbAct "s_1" 1 "w_1" "pki" "tofu_1"
      (sAct, [{ sessionId := "s_1", status := Status.active },
              { sessionId := "s_1", status := Status.pending }])
      (by decide) 1 "w_1" "pki" "tofu_1",
   activate_session_exactly_once db0 dbAct "s_1" 1 "w_1" "pki" "tofu_1"
      (sAct, [{ sessionId := "s_1", status := Status.active },
              { sessionId := "s_1", status := Status.pending }])
      (by decide) 2 "w_1" "pki" "tofu_1"⟩

/-- C3 counterexample: `TerminateSession` on the pending session of `db0`
succeeds and moves it straight from `pending` to `terminated`, a
transition the claim's state machine forbids (mirroring the repository
test case `valid-pending-session`, which requires this call to succeed). -/
theorem pending_terminates_directly :
    CurrentStatus db0 "s_1" = some Status.pending ∧
    isSuccess (TerminateSession db0 "s_1" 1 "closed by user").2 = true ∧
    CurrentStatus (TerminateSession db0 "s_1" 1 "closed by user").1 "s_1" =
      some Status.terminated := by
  decide

/-- C3 amended: the status transitions produced by the public repository
operations follow the state machine extended with the direct `pending` to
`terminated` step: pending goes to active, cancelling or terminated;
active goes to cancelling or terminated; cancelling goes to terminated;
terminated is terminal. -/
theorem session_status_transitions (db db' : DB) (sid : String) (v : Nat)
    (w wt tofu r : String) (res : Session × List SessionState) (cur : Status)
    (hcur : CurrentStatus db sid = some cur) :
    (ActivateSession db sid v w wt tofu = (db', Except.ok res) →
       CurrentStatus db' sid = some Status.active ∧
       StepAllowed cur Status.active = true) ∧
    (CancelSession db sid v = (db', Except.ok res) →
       CurrentStatus db' sid = some Status.cancelling ∧
       StepAllowed cur Status.cancelling = true) ∧
    (TerminateSession db sid v r = (db', Except.ok res) →
       CurrentStatus db' sid = some Status.terminated ∧
       StepAllowed cur Status.terminated = true) := by
  obtain ⟨s', ss⟩ := res
  refine ⟨?_, ?_, ?_⟩
  · intro h
    rcases hf : FindSession db sid with _ | s
    · obtain ⟨e, he⟩ := activate_none db sid v w wt tofu hf
      rw [he] at h
      exact absurd h (fun hc => err_ne_ok hc)
    · obtain ⟨-, -, -, hstat, -, hdb, -⟩ := activate_ok_inv db db' sid v w wt tofu s s' ss hf h
      rw [hcur] at hstat
      have hc : cur = Status.pending := Option.some.inj hstat
      subst hc
      refine ⟨?_, rfl⟩
      rw [hdb]
      exact CurrentStatus_append db sid _ Status.active
  · intro h
    rcases hf : FindSession db sid with _ | s
    · obtain ⟨e, he⟩ := cancel_none db sid v hf
      rw [he] at h
      exact absurd h (fun hc => err_ne_ok hc)
    · obtain ⟨-, -, -, hstat, -, hdb, -⟩ := cancel_ok_inv db db' sid v s s' ss hf h
      rw [hcur] at hstat
      have hcs : CurrentStatus db' sid = some Status.cancelling := by
        rw [hdb]
        exact CurrentStatus_append db sid _ Status.cancelling
      rcases hstat with hstat | hstat
      · have hc : cur = Status.pending := Option.some.inj hstat
        subst hc
        exact ⟨hcs, rfl⟩
      · have hc : cur = Status.active := Option.some.inj hstat
        subst hc
        exact ⟨hcs, rfl⟩
  · intro h
    rcases hf : FindSession db sid with _ | s
    · obtain ⟨e, he⟩ := terminate_none db sid v r hf
      rw [he] at h
      exact absurd h (fun hc => err_ne_ok hc)
    · obtain ⟨-, -, -, hterm, -, -, hdb, -⟩ := terminate_ok_inv db db' sid v r s s' ss hf h
      rw [hcur] at hterm
      have hcs : CurrentStatus db' sid = some Status.terminated := by
        rw [hdb]
        exact CurrentStatus_append db sid _ Status.terminated
      cases cur with
      | pending => exact ⟨hcs, rfl⟩
      | active => exact ⟨hcs, rfl⟩
      | cancelling => exact ⟨hcs, rfl⟩
      | terminated => exact absurd rfl hterm

/-- C3 witness: cancelling the pending session of `db0` yields the allowed
`pending` to `cancelling` transition. -/
theorem session_status_transitions_witness :
    CurrentStatus dbCancel "s_1" = some Status.cancelling ∧
    StepAllowed Status.pending Status.cancelling = true :=
  (session_status_transitions db0 dbCancel "s_1" 1 "w_1" "pki" "tofu_1" "closed by user"
      (sCancel, [{ sessionId := "s_1", status := Status.cancelling },
                 { sessionId := "s_1", status := Status.pending }])
      Status.pending (by decide)).2.1 (by decide)

/-- C4: `TerminateSession` fails, without mutating anything, whenever the
session owns a connection whose most recent state is not `closed`; with
the stored version, on a session that exists, is not already terminated
and whose owned connections are all closed, it succeeds, records the
supplied reason on the session and makes the newest state row
`terminated`. -/
theorem terminate_requires_closed_connections (db : DB) (sid : String) (v : Nat)
    (r : String) (s : Session) :
    (HasOpenConnection db sid = true →
       isSuccess (TerminateSession db sid v r).2 = false ∧
       (TerminateSession db sid v r).1 = db) ∧
    (sid ≠ "" → FindSession db sid = some s → s.version ≠ 0 →
     CurrentStatus db sid ≠ some Status.terminated → HasOpenConnection db sid = false →
       ∃ db' ss, TerminateSession db sid s.version r =
           (db', Except.ok ({ s with version := s.version + 1,
                                     terminationReason := some r }, ss)) ∧
         ss.head? = some { sessionId := sid, status := Status.terminated }) := by
  constructor
  · intro hopen
    obtain ⟨e, he⟩ := terminate_open db sid v r hopen
    rw [he]
    exact ⟨rfl, rfl⟩
  · intro hid hfind hv0 hterm hopen
    refine ⟨_, _, terminate_ok_eq db sid s r hid hfind hv0 hterm (by simp [hopen]), ?_⟩
    rw [SessionHistory_append]
    rfl

/-- C4 witness: on `dbOpen` (one connection still `connected`) termination
fails and mutates nothing; on `dbClosed` (latest connection state
`closed`) termination succeeds, records the reason and leaves a
`terminated` newest state row. -/
theorem terminate_requires_closed_connections_witness :
    (isSuccess (TerminateSession dbOpen "s_1" 1 "closed by user").2 = false ∧
     (TerminateSession dbOpen "s_1" 1 "closed by user").1 = dbOpen) ∧
    (∃ db' ss, TerminateSession dbClosed "s_1" 1 "closed by user" =
         (db', Except.ok ({ s0 with version := 2,
                                    terminationReason := some "closed by user" }, ss)) ∧
       ss.head? = some { sessionId := "s_1", status := Status.terminated }) :=
  ⟨(terminate_requires_closed_connections dbOpen "s_1" 1 "closed by user" s0).1 (by decide),
   (terminate_requires_closed_connections dbClosed "s_1" 1 "closed by user" s0).2
     (by decide) (by decide) (by decide) (by decide) (by decide)⟩

/-- C5: `CloseConnections` fails InvalidParameter on an empty batch and on
any item with an empty connection id or zero version; every failure leaves
the database unchanged (the batch is all-or-nothing); on success it returns
one result per input item, each with a state history whose first (current)
state is `closed`. -/
theorem close_connections_spec (db : DB) (cws : List CloseWith) :
    (cws = [] → CloseConnections db cws = (db, Except.error Err.invalidParameter)) ∧
    ((∃ cw ∈ cws, cw.connectionId = "" ∨ cw.connectionVersion = 0) →
       CloseConnections db cws = (db, Except.error Err.invalidParameter)) ∧
    (isSuccess (CloseConnections db cws).2 = false → (CloseConnections db cws).1 = db) ∧
    (∀ rs, (CloseConnections db cws).2 = Except.ok rs →
       rs.length = cws.length ∧
       ∀ resp ∈ rs, (resp.connectionStates.head?.map (fun cs => cs.status)) =
         some ConnStatus.closed) := by
  refine ⟨?_, ?_, ?_, ?_⟩
  · intro hemp
    subst hemp
    rfl
  · intro hbad
    obtain ⟨cw, hmem, hcw⟩ := hbad
    unfold CloseConnections
    by_cases hemp : cws = []
    · rw [if_pos hemp]
    · rw [if_neg hemp,
          if_pos (List.any_eq_true.mpr ⟨cw, hmem, decide_eq_true hcw⟩)]
  · intro hfail
    rcases closeConnections_cases db cws with ⟨e, he⟩ | ⟨dbf, rs, heq, -⟩
    · rw [he]
    · rw [heq] at hfail
      simp [isSuccess] at hfail
  · intro rs h
    rcases closeConnections_cases db cws with ⟨e, he⟩ | ⟨dbf, rs2, heq, hall⟩
    · rw [he] at h
      exact absurd h (fun hc => Except.noConfusion hc)
    · rw [heq] at h
      have hrs : rs2 = rs := Except.ok.inj h
      subst hrs
      exact closeAll_ok cws db dbf rs2 hall

/-- C5 witness: a batch with a zero-version item fails InvalidParameter
leaving `dbTwo` unchanged; the well-formed two-item batch succeeds with
one result per item, each with a `closed` current state. -/
theorem close_connections_spec_witness :
    (CloseConnections dbTwo [cw0, { cw1 with connectionVersion := 0 }] =
       (dbTwo, Except.error Err.invalidParameter)) ∧
    respTwo.length = [cw0, cw1].length ∧
    ∀ resp ∈ respTwo, (resp.connectionStates.head?.map (fun cs => cs.status)) =
      some ConnStatus.closed :=
  ⟨(close_connections_spec dbTwo [cw0, { cw1 with connectionVersion := 0 }]).2.1
     (by decide),
   (close_connections_spec dbTwo [cw0, cw1]).2.2.2 respTwo (by decide)⟩

/-- C6: `CreateSession` fails InvalidParameter, persisting nothing, when
any of the user, host, target, host-set, auth-token or scope identifiers is
empty; otherwise it succeeds with version 1 and exactly one initial
`pending` state row, and the created session is retrievable by
`LookupSession` together with that one row. -/
theorem create_session_spec (db : DB) (s : Session) :
    ((s.userId = "" ∨ s.hostId = "" ∨ s.targetId = "" ∨ s.hostSetId = "" ∨
      s.authTokenId = "" ∨ s.scopeId = "") →
       CreateSession db s = (db, Except.error Err.invalidParameter)) ∧
    (s.userId ≠ "" → s.hostId ≠ "" → s.targetId ≠ "" → s.hostSetId ≠ "" →
     s.authTokenId ≠ "" → s.scopeId ≠ "" → SessionHistory db (genId db) = [] →
       ∃ db' s' strow, CreateSession db s = (db', Except.ok (s', strow)) ∧
         s'.version = 1 ∧ strow.status = Status.pending ∧
         LookupSession db' s'.publicId = Except.ok (some (s', [strow]))) := by
  constructor
  · intro hbad
    unfold CreateSession
    rw [if_pos hbad]
  · intro h1 h2 h3 h4 h5 h6 hfresh
    have hne : ¬(s.userId = "" ∨ s.hostId = "" ∨ s.targetId = "" ∨ s.hostSetId = "" ∨
                 s.authTokenId = "" ∨ s.scopeId = "") := by
      simp [h1, h2, h3, h4, h5, h6]
    refine ⟨_, _, _, create_ok_eq db s hne, rfl, rfl, ?_⟩
    unfold LookupSession FindSession SessionHistory
    unfold SessionHistory at hfresh
    rw [List.find?_cons_of_pos _ (by simp)]
    simp only [Option.map_some']
    rw [List.filter_cons_of_pos (by simp), hfresh]

/-- C6 witness: creating from `sNew` with a blanked user id fails
InvalidParameter leaving `db0` unchanged; creating from `sNew` succeeds
with version 1, one pending state row, and a successful lookup. -/
theorem create_session_spec_witness :
    (CreateSession db0 { sNew with userId := "" } =
       (db0, Except.error Err.invalidParameter)) ∧
    (∃ db' s' strow, CreateSession db0 sNew = (db', Except.ok (s', strow)) ∧
       s'.version = 1 ∧ strow.status = Status.pending ∧
       LookupSession db' s'.publicId = Except.ok (some (s', [strow]))) :=
  ⟨(create_session_spec db0 { sNew with userId := "" }).1 (by decide),
   (create_session_spec db0 sNew).2 (by decide) (by decide) (by decide) (by decide)
     (by decide) (by decide) (by decide)⟩

/-- C7: on a session whose history is a single `pending` row,
`ActivateSession` with the stored version sets the supplied
trust-on-first-use token and worker binding on the returned session and
returns a state history of exactly 2 rows ordered newest-first, the first
of which is `active`. -/
theorem activate_sets_tofu_and_worker (db : DB) (sid : String) (s : Session)
    (w wt tofu : String) (st0 : SessionState)
    (hid : sid ≠ "") (hfind : FindSession db sid = some s) (hv0 : s.version ≠ 0)
    (hhist : SessionHistory db sid = [st0]) (hst : st0.status = Status.pending) :
    ∃ db' s', ActivateSession db sid s.version w wt tofu =
        (db', Except.ok (s', SessionHistory db' sid)) ∧
      s'.tofuToken = some tofu ∧ s'.workerId = some w ∧ s'.workerType = some wt ∧
      SessionHistory db' sid = [{ sessionId := sid, status := Status.active }, st0] ∧
      CurrentStatus db' sid = some Status.active := by
  have hstat : CurrentStatus db sid = some Status.pending := by
    unfold CurrentStatus
    rw [hhist]
    simp [hst]
  refine ⟨_, _, activate_ok_eq db sid s w wt tofu hid hfind hv0 hstat,
          rfl, rfl, rfl, ?_, ?_⟩
  · rw [SessionHistory_append, hhist]
  · exact CurrentStatus_append db sid _ Status.active

/-- C7 witness: activating the pending session of `db0` with version 1
sets token and worker and yields the 2-row newest-first history. -/
theorem activate_sets_tofu_and_worker_witness :
    ∃ db' s', ActivateSession db0 "s_1" 1 "w_1" "pki" "tofu_1" =
        (db', Except.ok (s', SessionHistory db' "s_1")) ∧
      s'.tofuToken = some "tofu_1" ∧ s'.workerId = some "w_1" ∧
      s'.workerType = some "pki" ∧
      SessionHistory db' "s_1" = [{ sessionId := "s_1", status := Status.active },
                                  { sessionId := "s_1", status := Status.pending }] ∧
      CurrentStatus db' "s_1" = some Status.active :=
  activate_sets_tofu_and_worker db0 "s_1" s0 "w_1" "pki" "tofu_1"
    { sessionId := "s_1", status := Status.pending }
    (by decide) (by decide) (by decide) (by decide) (by decide)

/-- C8: `DeleteSession` fails InvalidParameter on an empty id and
RecordNotFound on a nonexistent id, both without touching the database; on
an existing id (public ids being unique) it deletes exactly 1 session row
and a subsequent `LookupSession` returns a nil session with no error. -/
theorem delete_session_spec (db : DB) (sid : String) (s : Session) :
    (DeleteSession db "" = (db, Except.error Err.invalidParameter)) ∧
    (sid ≠ "" → FindSession db sid = none →
       DeleteSession db sid = (db, Except.error Err.recordNotFound)) ∧
    (sid ≠ "" → FindSession db sid = some s →
     (db.sessions.map (fun x => x.publicId)).Nodup →
       ∃ db', DeleteSession db sid = (db', Except.ok 1) ∧
         LookupSession db' sid = Except.ok none) := by
  refine ⟨?_, ?_, ?_⟩
  · unfold DeleteSession
    rw [if_pos rfl]
  · intro hid hnone
    unfold DeleteSession
    simp only [hnone]
    rw [if_neg hid]
  · intro hid hfind hnd
    have hcnt : db.sessions.countP (fun x => decide (x.publicId = sid)) = 1 :=
      countP_publicId_eq_one db.sessions sid s hfind hnd
    have heq := delete_ok_eq db sid s hid hfind
    rw [hcnt] at heq
    refine ⟨_, heq, ?_⟩
    unfold LookupSession FindSession
    rw [find?_filter_ne]
    rfl

/-- C8 witness: deleting with an empty id or a nonexistent id fails as
specified on `db0`; deleting `s_1` removes exactly one row and the
subsequent lookup returns nil without error. -/
theorem delete_session_spec_witness :
    (DeleteSession db0 "" = (db0, Except.error Err.invalidParameter)) ∧
    (DeleteSession db0 "s_9" = (db0, Except.error Err.recordNotFound)) ∧
    (∃ db', DeleteSession db0 "s_1" = (db', Except.ok 1) ∧
       LookupSession db' "s_1" = Except.ok none) :=
  ⟨(delete_session_spec db0 "s_1" s0).1,
   (delete_session_spec db0 "s_9" s0).2.1 (by decide) (by decide),
   (delete_session_spec db0 "s_1" s0).2.2 (by decide) (by decide) (by decide)⟩

/-- C9: neither `CreateSession` nor `DeleteSession` writes to the generic
audit log: the oplog is left exactly as it was, and if no oplog entry for
the session's public id existed before the call, none exists after it. -/
theorem session_mutations_bypass_oplog (db db' : DB) (s s' : Session)
    (strow : SessionState) (sid : String) :
    ((CreateSession db s).1.oplog = db.oplog) ∧
    ((DeleteSession db sid).1.oplog = db.oplog) ∧
    (CreateSession db s = (db', Except.ok (s', strow)) →
       FindOplog db s'.publicId = [] → FindOplog db' s'.publicId = []) ∧
    (FindOplog db sid = [] → FindOplog (DeleteSession db sid).1 sid = []) := by
  have hcr : (CreateSession db s).1.oplog = db.oplog := by
    unfold CreateSession
    split_ifs <;> rfl
  have hdel : (DeleteSession db sid).1.oplog = db.oplog := by
    unfold DeleteSession
    rcases hf : FindSession db sid with _ | s2 <;> simp only [hf] <;> split_ifs <;> rfl
  refine ⟨hcr, hdel, ?_, ?_⟩
  · intro h hpre
    obtain ⟨-, -, hdb⟩ := create_ok_inv db db' s s' strow h
    unfold FindOplog at hpre ⊢
    rw [hdb]
    exact hpre
  · intro hpre
    unfold FindOplog at hpre ⊢
    rw [hdel]
    exact hpre

/-- C9 witness: on `db0`, creating a session and deleting `s_1` leave the
(empty) oplog unchanged, and the lookup for the deleted id finds no
entry. -/
theorem session_mutations_bypass_oplog_witness :
    (CreateSession db0 sNew).1.oplog = db0.oplog ∧
    FindOplog (DeleteSession db0 "s_1").1 "s_1" = [] :=
  ⟨(session_mutations_bypass_oplog db0 db0 sNew s0
      { sessionId := "s_1", status := Status.pending } "s_1").1,
   (session_mutations_bypass_oplog db0 db0 sNew s0
      { sessionId := "s_1", status := Status.pending } "s_1").2.2.2 (by decide)⟩

/-- The chain-membership reading of the pq side coincides with the
`errors.As` reading, because a `pq.Error` never wraps another error: a
linear chain holds at most one. -/
lemma chainContainsPq_iff (e : GoError) (name : String) :
    chainContainsPq name e = true ↔ asPq e = some name := by
  induction e with
  | domainLeaf c => simp [chainContainsPq, asPq]
  | domainWrap c inner ih => simpa [chainContainsPq, asPq] using ih
  | pqe n => simp [chainContainsPq, asPq, eq_comm]
  | wrapErr inner ih => simpa [chainContainsPq, asPq] using ih
  | plain => simp [chainContainsPq, asPq]

/-- The domain-error side of `IsUniqueError`-style classifiers tests the
first domain error found by `errors.As`. -/
lemma domainMatch_iff (e : GoError) (c : Code) :
    (match asDomain e with
     | some c2 => decide (c2 = c)
     | none => false) = true ↔ asDomain e = some c := by
  rcases h : asDomain e with _ | c2 <;> simp [h]

/-- The pq side of the classifiers tests the code name of the first
`pq.Error` found by `errors.As`. -/
lemma pqMatch_iff (e : GoError) (name : String) :
    (match asPq e with
     | some n => decide (n = name)
     | none => false) = true ↔ chainContainsPq name e = true := by
  rcases h : asPq e with _ | n <;> simp [h, chainContainsPq_iff]

/-- C10 counterexample: a domain error with code `CheckConstraint`
wrapping a domain error with code `NotUnique`.  The chain contains a
domain error carrying `NotUnique`, yet `IsUniqueError` returns false,
because `errors.As` stops at the first domain error in the chain and its
code is not `NotUnique`. -/
theorem is_unique_error_not_chain_membership :
    chainContainsDomain Code.notUnique
        (GoError.domainWrap Code.checkConstraint (GoError.domainLeaf Code.notUnique)) = true ∧
    IsUniqueError
        (some (GoError.domainWrap Code.checkConstraint (GoError.domainLeaf Code.notUnique)))
      = false := by
  decide

/-- C10 amended: each classifier returns false for a nil error, and for a
non-nil error returns true exactly when the first domain error in the
chain (the one `errors.As` finds) carries the corresponding code, or the
chain contains a pq error whose code name is the corresponding
violation. -/
theorem is_error_classification (e : GoError) :
    IsUniqueError none = false ∧ IsCheckConstraintError none = false ∧
    IsNotNullError none = false ∧
    (IsUniqueError (some e) = true ↔
       asDomain e = some Code.notUnique ∨
       chainContainsPq "unique_violation" e = true) ∧
    (IsCheckConstraintError (some e) = true ↔
       asDomain e = some Code.checkConstraint ∨
       chainContainsPq "check_violation" e = true) ∧
    (IsNotNullError (some e) = true ↔
       asDomain e = some Code.notNull ∨
       chainContainsPq "not_null_violation" e = true) := by
  refine ⟨rfl, rfl, rfl, ?_, ?_, ?_⟩
  · unfold IsUniqueError
    rw [Bool.or_eq_true]
    exact or_congr (domainMatch_iff e Code.notUnique) (pqMatch_iff e "unique_violation")
  · unfold IsCheckConstraintError
    rw [Bool.or_eq_true]
    exact or_congr (domainMatch_iff e Code.checkConstraint) (pqMatch_iff e "check_violation")
  · unfold IsNotNullError
    rw [Bool.or_eq_true]
    exact or_congr (domainMatch_iff e Code.notNull) (pqMatch_iff e "not_null_violation")

/-- C10 witness: a pq `unique_violation` anywhere in the chain makes
`IsUniqueError` true. -/
theorem is_error_classification_witness :
    IsUniqueError (some (GoError.wrapErr (GoError.pqe "unique_violation"))) = true :=
  (is_error_classification (GoError.wrapErr (GoError.pqe "unique_violation"))).2.2.2.1.mpr
    (Or.inr (by decide))

end Boundary
